import Mathlib

/-!
Verification development for the RAGdoll repository: a shallow embedding of
the TParty front-end service layer (`TParty/src/services/ragService.js`,
`TParty/src/components/NamespaceManager.js`), the deployment configurations
(`redis.conf`, the three docker-compose files, `startup.sh`), and a model of
the namespace-isolated hybrid retrieval core described by the design spec
(the Python `app/` package itself is not part of the sources at hand, so the
retrieval core is modelled from the spec).
-/

namespace Ragdoll

/-! ## JavaScript value helpers

JS `x || d` picks `d` when `x` is falsy.  For the option-typed fields of the
front-end option objects, `undefined` is `none`, `0` (int or float) and the
empty string are falsy, everything else is truthy. -/

/-- JS `v || d` on an optional integer field: `undefined` and `0` are falsy. -/
def jsOrInt (v : Option Int) (d : Int) : Int :=
  match v with
  | none => d
  | some x => if x = 0 then d else x

/-- JS `v || d` on an optional float field: `undefined` and `0.0` are falsy. -/
def jsOrRat (v : Option Rat) (d : Rat) : Rat :=
  match v with
  | none => d
  | some x => if x = 0 then d else x

/-- JS truthiness of a string: only the empty string is falsy. -/
def jsTruthyStr (s : String) : Bool := decide (s ≠ "")

/-! ## Token storage (`ragService.js` lines 49–64)

`localStorage` for the single key `ragdoll_token` is modelled as an
`Option String`: `none` when the key is absent (`getItem` returns `null`). -/

/-- `getToken()` (`ragService.js` line 50): `localStorage.getItem('ragdoll_token')`. -/
def getToken (st : Option String) : Option String := st

/-- `setToken(token)` (`ragService.js` line 54): `localStorage.setItem('ragdoll_token', token)`. -/
def setToken (t : String) (_ : Option String) : Option String := some t

/-- `clearToken()` (`ragService.js` line 58): `localStorage.removeItem('ragdoll_token')`. -/
def clearToken (_ : Option String) : Option String := none

/-- `isAuthenticated()` (`ragService.js` line 62): `!!this.getToken()`. -/
def isAuthenticated (st : Option String) : Bool :=
  match getToken st with
  | none => false
  | some s => jsTruthyStr s

/-- Request interceptor (`ragService.js` lines 16–29): the Authorization
header of an outgoing request, `Bearer ${token}` when a truthy token is
stored, absent otherwise. -/
def authHeader (st : Option String) : Option String :=
  match getToken st with
  | none => none
  | some s => if jsTruthyStr s then some ("Bearer " ++ s) else none

/-- Response interceptor error handler (`ragService.js` lines 37–45):
a rejected response with status 401 clears the stored token; every other
status leaves the storage unchanged. -/
def onResponseError (status : Nat) (st : Option String) : Option String :=
  if status = 401 then clearToken st else st

/-- The axios instance routes a response of status `s` through the success
handler when `200 ≤ s < 300` (axios default `validateStatus`) — which leaves
storage untouched — and through the error handler otherwise. -/
def processResponse (status : Nat) (st : Option String) : Option String :=
  if 200 ≤ status ∧ status < 300 then st else onResponseError status st

/-! ## `RAGService.login` (`ragService.js` lines 66–79) -/

/-- Body of a successful `/auth/login` response: `{ access_token }`. -/
structure LoginBody where
  access_token : String
deriving DecidableEq

/-- Outcome of the `POST /auth/login` request as seen by `login`:
a 2xx body, an HTTP error response (status plus optional `data.detail`),
or a network-level error carrying only a message. -/
inductive LoginOutcome where
  | success (body : LoginBody)
  | httpError (status : Nat) (detail : Option String)
  | networkError (message : String)

/-- axios's message for an HTTP error response. -/
def axiosHttpMessage (status : Nat) : String :=
  "Request failed with status code " ++ toString status

/-- `error.response?.data?.detail || error.message` (`ragService.js` line 77):
the detail when present and truthy, axios's default message otherwise. -/
def httpErrMsg (status : Nat) (detail : Option String) : String :=
  match detail with
  | none => axiosHttpMessage status
  | some d => if d = "" then axiosHttpMessage status else d

/-- `RAGService.login` (`ragService.js` lines 66–79).  The request first
passes the response interceptor (an HTTP error with status 401 clears the
stored token before `login`'s `catch` runs), then on success the returned
`access_token` is stored and the body returned; on any failure an error
whose message is `'Login failed: ' + (detail || message)` is thrown. -/
def loginModel (st : Option String) (outcome : LoginOutcome) :
    Except String LoginBody × Option String :=
  match outcome with
  | .success body => (.ok body, setToken body.access_token st)
  | .httpError status detail =>
      (.error ("Login failed: " ++ httpErrMsg status detail), onResponseError status st)
  | .networkError msg => (.error ("Login failed: " ++ msg), st)

/-! ## `RAGService.query` (`ragService.js` lines 107–117) -/

/-- The camel-case option fields of `RAGService.query`'s `options` object. -/
structure QueryOptions where
  topK : Option Int
  scoreThreshold : Option Rat
deriving DecidableEq

/-- The request body dispatched by `RAGService.query`:
`{ query, top_k: options.topK || 5, score_threshold: options.scoreThreshold || 0.0 }`. -/
structure QueryPayload where
  query : String
  top_k : Int
  score_threshold : Rat
deriving DecidableEq

/-- Payload construction of `RAGService.query` (`ragService.js` lines 108–113). -/
def buildQueryPayload (q : String) (opts : QueryOptions) : QueryPayload :=
  { query := q
    top_k := jsOrInt opts.topK 5
    score_threshold := jsOrRat opts.scoreThreshold 0 }

/-- Endpoint of `RAGService.query` (`ragService.js` line 115): `` `/query/${namespace}` ``. -/
def queryEndpoint (ns : String) : String := "/query/" ++ ns

/-- An HTTP response as axios delivers it: a status and a body (`data`). -/
structure ApiResponse (α : Type) where
  status : Nat
  data : α

/-- `RAGService.query` (`ragService.js` lines 107–117), abstracted over the
HTTP transport `post`: builds the payload, posts it to `/query/{namespace}`,
and returns `response.data` unchanged. -/
def ragServiceQuery {α : Type} (post : String → QueryPayload → ApiResponse α)
    (q ns : String) (opts : QueryOptions) : α :=
  (post (queryEndpoint ns) (buildQueryPayload q opts)).data

/-! ## The `RAGService` method table (`ragService.js` lines 5–217)

The methods defined on the `RAGService` class, in source order.  The class
body defines `chatWithGPT` twice (lines 120 and 134); in JS the later
definition wins, so the name appears once. -/

/-- Names of the methods defined on the `RAGService` class
(`ragService.js` lines 5–217). -/
def ragServiceMethods : List String :=
  ["getToken", "setToken", "clearToken", "isAuthenticated", "login", "logout",
   "getProfile", "getHealth", "getDocuments", "query", "chatWithGPT",
   "streamChatWithGPT", "getNamespaces"]

/-- Methods `NamespaceManager.js` invokes on `ragService`
(lines 302, 311, 342, 360, 483). -/
def namespaceManagerCalls : List String :=
  ["getNamespaces", "getNamespaceStats", "createNamespace", "deleteNamespace",
   "formatFileSize"]

/-- JS property invocation on the service object: calling a method that the
class does not define evaluates `undefined(...)` and throws a `TypeError`. -/
def invokeMethod (methods : List String) (m : String) : Except String Unit :=
  if m ∈ methods then .ok () else .error ("TypeError: ragService." ++ m ++ " is not a function")

/-! ## Namespace deletion UI (`NamespaceManager.js`)

Lines 446–461 render the delete `ActionButton` only under the guard
`namespace !== 'default'`; lines 354–366 (`handleDeleteNamespace`) return
early unless `window.confirm(...)` is accepted, and only then call
`ragService.deleteNamespace(namespace)`. -/

/-- Render guard of the delete action (`NamespaceManager.js` line 447). -/
def renderDeleteAction (ns : String) : Bool := decide (ns ≠ "default")

/-- `handleDeleteNamespace` (`NamespaceManager.js` lines 354–366): whether
`ragService.deleteNamespace` is reached, as a function of the result of the
`window.confirm` dialog. -/
def confirmedDelete (confirmResult : Bool) : Bool := confirmResult

/-- Whether a user interaction in the namespace grid can invoke
`ragService.deleteNamespace(ns)`: the delete button must be rendered for
`ns` and the confirmation dialog must be accepted. -/
def uiDeleteDispatch (ns : String) (confirmResult : Bool) : Bool :=
  renderDeleteAction ns && confirmedDelete confirmResult

/-! ## Redis deployment configurations

Redis startup settings of the three deployment configurations shipped with
the repository.  A missing `maxmemory-policy` leaves Redis's built-in
default, `noeviction`. -/

/-- Redis startup settings extracted from a deployment configuration. -/
structure RedisDeployConfig where
  file : String
  maxmemoryMb : Option Nat
  maxmemoryPolicy : Option String
deriving DecidableEq

/-- `redis.conf` lines 9–12 (mounted and used by the full compose file's
`redis-server /usr/local/etc/redis/redis.conf` command):
`maxmemory 512mb`, `maxmemory-policy allkeys-lru`. -/
def redisConfConfig : RedisDeployConfig :=
  { file := "redis.conf", maxmemoryMb := some 512, maxmemoryPolicy := some "allkeys-lru" }

/-- The default compose file's redis service command:
`redis-server --appendonly yes --maxmemory 512mb --maxmemory-policy allkeys-lru`. -/
def composeDefaultRedis : RedisDeployConfig :=
  { file := "docker-compose.yml", maxmemoryMb := some 512, maxmemoryPolicy := some "allkeys-lru" }

/-- `docker-compose.fast.yml` line 26's redis service command:
`redis-server --save "" --appendonly no --maxmemory 256mb` — no
`--maxmemory-policy` flag. -/
def composeFastRedis : RedisDeployConfig :=
  { file := "docker-compose.fast.yml", maxmemoryMb := some 256, maxmemoryPolicy := none }

/-- Redis's built-in default eviction policy, used when none is configured. -/
def redisDefaultPolicy : String := "noeviction"

/-- The eviction policy a configuration actually runs with. -/
def effectivePolicy (c : RedisDeployConfig) : String :=
  c.maxmemoryPolicy.getD redisDefaultPolicy

/-- All Redis deployment configurations shipped with the repository. -/
def deployedRedisConfigs : List RedisDeployConfig :=
  [redisConfConfig, composeDefaultRedis, composeFastRedis]

/-! ## Hybrid-search weight defaults -/

/-- `BM25_WEIGHT` / `VECTOR_WEIGHT` environment settings of one service
definition in a compose file. -/
structure HybridWeights where
  location : String
  bm25 : Rat
  vector : Rat
deriving DecidableEq

/-- Full compose file, shared `x-common-environment` block (lines 14–15):
`BM25_WEIGHT: 0.3`, `VECTOR_WEIGHT: 0.7`. -/
def fullComposeWeights : HybridWeights :=
  { location := "docker-compose.full.yml x-common-environment", bm25 := 3/10, vector := 7/10 }

/-- Default compose file, `ragdoll` ingestion service environment:
`BM25_WEIGHT=0.3`, `VECTOR_WEIGHT=0.7`. -/
def defaultComposeIngestWeights : HybridWeights :=
  { location := "docker-compose.yml ragdoll service", bm25 := 3/10, vector := 7/10 }

/-- Default compose file, `ragdoll-api` service environment:
`BM25_WEIGHT=0.3`, `VECTOR_WEIGHT=0.7`. -/
def defaultComposeApiWeights : HybridWeights :=
  { location := "docker-compose.yml ragdoll-api service", bm25 := 3/10, vector := 7/10 }

/-- `docker-compose.fast.yml`, shared `x-common-environment` block
(lines 14–15): `BM25_WEIGHT: 0.3`, `VECTOR_WEIGHT: 0.7`. -/
def fastComposeWeights : HybridWeights :=
  { location := "docker-compose.fast.yml x-common-environment", bm25 := 3/10, vector := 7/10 }

/-- Every hybrid-weight setting shipped in the repository's deployment files. -/
def shippedWeightConfigs : List HybridWeights :=
  [fullComposeWeights, defaultComposeIngestWeights, defaultComposeApiWeights,
   fastComposeWeights]

/-! ## Container startup (`startup.sh` lines 29–44)

The script runs `until python -c "... redis.Redis(host='redis').ping() ..."`
in a loop, sleeping 2 seconds between attempts, and only after a successful
ping falls through to `exec "$@"`.  With Redis reachability held fixed, the
loop terminates — and the wrapped service command is exec'd — exactly when
Redis is reachable. -/

/-- Whether the startup script reaches `exec "$@"`, as a function of Redis
reachability (`startup.sh` lines 29–44). -/
def startupProceeds (redisReachable : Bool) : Bool := redisReachable

/-! ## The namespace-isolated hybrid retrieval core

Modelled from the spec: the Python `app/` package (namespace registry,
vector index, sparse BM25 index, hybrid scorer, cache layer) is not among
the sources at hand — only its compose files, startup script and front-end
consumers are — so the retrieval core below follows the spec's §3–§5:
namespace-scoped dual indices over immutable chunks, a hybrid scorer with
per-signal min-max normalization and weighted combination, and a cache layer
with a bloom pre-check, keyed by `(namespace, query_text, top_k, weights)`. -/

/-- A chunk (spec §3): namespace-local monotonic id, text, its token list
(the sparse index's view) and its embedding vector (the vector index's
view).  Both indices are built together, so a single chunk record carries
both representations. -/
structure Chunk where
  id : Nat
  ns : String
  text : String
  tokens : List String
  vec : List Int
deriving DecidableEq

/-- One entry of a query result list: a chunk with its combined score. -/
structure ResultEntry where
  chunk : Chunk
  score : Rat
deriving DecidableEq

/-- A cache key (spec §3): `hash(namespace, query_text, top_k, weights)`,
modelled by the tuple itself. -/
structure QueryKey where
  ns : String
  queryText : String
  topK : Nat
  bm25Weight : Rat
  vectorWeight : Rat
deriving DecidableEq

/-- The retrieval core's state: the chunk store (the namespace-scoped
index pair, kept in one list since both indices always hold the same chunk
set — spec §3's dual-write invariant), the authoritative cache, and the
bloom filter's key set. -/
structure RagState where
  chunks : List Chunk
  cache : List (QueryKey × List ResultEntry)
  bloom : List QueryKey
deriving DecidableEq

/-- The empty core: no namespaces populated, empty cache and bloom filter. -/
def emptyRag : RagState := { chunks := [], cache := [], bloom := [] }

/-- Default tokenizer (spec §4.3): lowercasing plus whitespace splitting. -/
def tokenize (s : String) : List String :=
  (s.splitOn " ").map (fun t => t.toLower)

/-- The chunks of one namespace (both indices are namespace-scoped). -/
def nsChunks (st : RagState) (ns : String) : List Chunk :=
  st.chunks.filter (fun c => decide (c.ns = ns))

/-! ### Sparse index scoring (spec §4.3)

BM25 with `k1 = 1.2`, `b = 0.75`.  The idf logarithm is replaced by its
(rational, monotone) argument `(N - df + 1/2) / (df + 1/2)` so that scores
stay in `ℚ` and the model is executable; none of the proved properties
depend on the particular monotone scoring formula. -/

/-- Term frequency of `tok` in chunk `c`. -/
def termFreq (tok : String) (c : Chunk) : Nat :=
  (c.tokens.filter (fun t => decide (t = tok))).length

/-- Document frequency of `tok` over the namespace corpus. -/
def docFreq (pool : List Chunk) (tok : String) : Nat :=
  (pool.filter (fun c => decide (tok ∈ c.tokens))).length

/-- Average chunk length of the corpus (`ℚ`-valued; `0` for an empty corpus). -/
def avgLen (pool : List Chunk) : Rat :=
  ((pool.foldr (fun c a => c.tokens.length + a) 0 : Nat) : Rat) / (pool.length : Rat)

/-- Rational inverse-document-frequency surrogate. -/
def idfSur (pool : List Chunk) (tok : String) : Rat :=
  ((pool.length : Rat) - (docFreq pool tok : Rat) + 1/2) / ((docFreq pool tok : Rat) + 1/2)

/-- BM25 contribution of one query token to one chunk. -/
def bm25One (pool : List Chunk) (c : Chunk) (tok : String) : Rat :=
  let k1 : Rat := 6/5
  let b : Rat := 3/4
  let f : Rat := (termFreq tok c : Rat)
  idfSur pool tok * (f * (k1 + 1)) /
    (f + k1 * (1 - b + b * ((c.tokens.length : Rat) / avgLen pool)))

/-- BM25 score of a chunk for a tokenized query over its namespace corpus. -/
def bm25Score (pool : List Chunk) (qtokens : List String) (c : Chunk) : Rat :=
  qtokens.foldr (fun t a => bm25One pool c t + a) 0

/-! ### Vector index scoring (spec §4.2) -/

/-- Squared Euclidean (L2) distance between two embedding vectors. -/
def sqDist (u v : List Int) : Int :=
  (List.zipWith (fun a b => (a - b) * (a - b)) u v).foldr (· + ·) 0

/-- Presentation similarity `1 / (1 + distance)` (spec §4.2). -/
def vecSim (u v : List Int) : Rat := 1 / (1 + (sqDist u v : Rat))

/-! ### Sorting

Insertion sort parameterized by a boolean precedence test; used for the
vector order (ascending distance, ties by ascending chunk id), the BM25
order and the final combined order (both descending score, ties by
ascending chunk id). -/

/-- Insert `a` before the first element it precedes. -/
def insertLe {α : Type} (le : α → α → Bool) (a : α) : List α → List α
  | [] => [a]
  | b :: l => if le a b then a :: b :: l else b :: insertLe le a l

/-- Insertion sort by the precedence test `le`. -/
def insSort {α : Type} (le : α → α → Bool) : List α → List α
  | [] => []
  | a :: l => insertLe le a (insSort le l)

/-- Vector-index order: ascending squared distance, ties by ascending id. -/
def chunkVecLE (qvec : List Int) (c1 c2 : Chunk) : Bool :=
  if sqDist qvec c1.vec < sqDist qvec c2.vec then true
  else if sqDist qvec c1.vec = sqDist qvec c2.vec then decide (c1.id ≤ c2.id)
  else false

/-- Sparse-index order: descending BM25 score, ties by ascending id. -/
def chunkBmLE (pool : List Chunk) (qtokens : List String) (c1 c2 : Chunk) : Bool :=
  if bm25Score pool qtokens c2 < bm25Score pool qtokens c1 then true
  else if bm25Score pool qtokens c1 = bm25Score pool qtokens c2 then decide (c1.id ≤ c2.id)
  else false

/-- Combined-result order: descending combined score, ties by ascending id. -/
def resLE (r1 r2 : ResultEntry) : Bool :=
  if r2.score < r1.score then true
  else if r1.score = r2.score then decide (r1.chunk.id ≤ r2.chunk.id)
  else false

/-! ### Hybrid scorer (spec §4.4) -/

/-- Top `n` candidates of the vector index for a query vector. -/
def vecCandidates (pool : List Chunk) (qvec : List Int) (n : Nat) : List Chunk :=
  (insSort (chunkVecLE qvec) pool).take n

/-- Top `n` candidates of the sparse index for a tokenized query. -/
def bmCandidates (pool : List Chunk) (qtokens : List String) (n : Nat) : List Chunk :=
  (insSort (chunkBmLE pool qtokens) pool).take n

/-- Min-max normalization of a component's scores to `[0,1]` over its own
candidate set (spec §4.4); a degenerate candidate set (all scores equal)
normalizes to `1`. -/
def minMaxNorm (pairs : List (Chunk × Rat)) : List (Chunk × Rat) :=
  let scores := pairs.map (fun p => p.2)
  let mn := scores.foldr min (scores.headD 0)
  let mx := scores.foldr max (scores.headD 0)
  pairs.map (fun p => (p.1, if mx = mn then 1 else (p.2 - mn) / (mx - mn)))

/-- Normalized score of a chunk in one component's candidate list; chunks
missing from that component's candidate set default to `0` (spec §4.4). -/
def lookup0 (pairs : List (Chunk × Rat)) (c : Chunk) : Rat :=
  match pairs.find? (fun p => decide (p.1 = c)) with
  | none => 0
  | some p => p.2

/-- The hybrid scorer (spec §4.4): retrieve top `N = max(4k, 50)` from each
namespace-scoped index, min-max normalize each signal over its own candidate
set, combine with the caller's weights (missing signal contributes `0`),
sort descending by combined score with ascending-id tie-break, truncate
to `k`. -/
def hybridQuery (st : RagState) (key : QueryKey) (qvec : List Int) : List ResultEntry :=
  let pool := nsChunks st key.ns
  let n := max (4 * key.topK) 50
  let qtokens := tokenize key.queryText
  let vc := vecCandidates pool qvec n
  let bc := bmCandidates pool qtokens n
  let vnorm := minMaxNorm (vc.map (fun c => (c, vecSim qvec c.vec)))
  let bnorm := minMaxNorm (bc.map (fun c => (c, bm25Score pool qtokens c)))
  let cands := vc ++ bc.filter (fun c => decide (c ∉ vc))
  let scored := cands.map (fun c =>
    ResultEntry.mk c (key.bm25Weight * lookup0 bnorm c + key.vectorWeight * lookup0 vnorm c))
  (insSort resLE scored).take key.topK

/-! ### Cache layer (spec §4.5) and the query entry point -/

/-- Authoritative cache lookup: the most recently stored entry for the key
(`Store` overwrites on key collision; storing conses, lookup takes the first
match). -/
def cacheLookup (cache : List (QueryKey × List ResultEntry)) (key : QueryKey) :
    Option (List ResultEntry) :=
  (cache.find? (fun e => decide (e.1 = key))).map (fun e => e.2)

/-- Bloom pre-check followed by the authoritative lookup: a key the bloom
filter has never seen is reported missing without consulting the cache
(no false negatives — the model stores exactly the seen keys). -/
def bloomCacheLookup (st : RagState) (key : QueryKey) : Option (List ResultEntry) :=
  if key ∈ st.bloom then cacheLookup st.cache key else none

/-- Store a computed result: cons onto the authoritative cache (overwriting
semantics via first-match lookup) and record the key in the bloom filter. -/
def storeResult (st : RagState) (key : QueryKey) (r : List ResultEntry) : RagState :=
  { st with cache := (key, r) :: st.cache, bloom := key :: st.bloom }

/-- The query entry point (spec §2 control flow and §4.5 failure semantics),
parameterized by cache-store reachability.  With the store reachable, a
bloom-positive cache hit is returned as-is; a miss computes the hybrid
result and caches it.  With the store unreachable, `Lookup` fails open —
treated as a miss — and the query is computed and answered uncached, never
failing. -/
def queryEngine (avail : Bool) (st : RagState) (key : QueryKey) (qvec : List Int) :
    List ResultEntry × RagState :=
  match (if avail then bloomCacheLookup st key else none) with
  | some r => (r, st)
  | none =>
      let r := hybridQuery st key qvec
      if avail then (r, storeResult st key r) else (r, st)

/-- `Query` with the cache store reachable (the normal deployment). -/
def queryCached (st : RagState) (key : QueryKey) (qvec : List Int) :
    List ResultEntry × RagState :=
  queryEngine true st key qvec

/-- Next namespace-local monotonic chunk id (spec §3). -/
def nextChunkId (st : RagState) (ns : String) : Nat :=
  (nsChunks st ns).length

/-- `IndexChunk` (spec §6): appends the chunk, stamped with its namespace
and namespace-local id, to the namespace's index pair (the atomic
dual-write of spec §3). -/
def indexChunk (st : RagState) (ns text : String) (tokens : List String)
    (vec : List Int) : RagState :=
  { st with chunks := st.chunks ++ [{ id := nextChunkId st ns, ns := ns,
                                      text := text, tokens := tokens, vec := vec }] }

/-- `DeleteNamespace` (spec §3): atomically removes the namespace's chunks
and every cache entry whose key encodes the namespace; the bloom filter is
not rebuilt (spec §4.5's acceptable staleness). -/
def deleteNamespace (st : RagState) (ns : String) : RagState :=
  { chunks := st.chunks.filter (fun c => decide (c.ns ≠ ns))
    cache := st.cache.filter (fun e => decide (e.1.ns ≠ ns))
    bloom := st.bloom }

/-- States the core can reach from empty through its public operations. -/
inductive Reachable : RagState → Prop where
  | init : Reachable emptyRag
  | index (st : RagState) (ns text : String) (tokens : List String) (vec : List Int) :
      Reachable st → Reachable (indexChunk st ns text tokens vec)
  | query (st : RagState) (key : QueryKey) (qvec : List Int) :
      Reachable st → Reachable (queryCached st key qvec).2
  | delete (st : RagState) (ns : String) :
      Reachable st → Reachable (deleteNamespace st ns)

/-- Cache soundness invariant: every cached result entry belongs to the
namespace its key encodes. -/
def CacheInv (st : RagState) : Prop :=
  ∀ e ∈ st.cache, ∀ r ∈ e.2, r.chunk.ns = e.1.ns

/-! ### A concrete scenario used to instantiate the isolation theorem -/

/-- The single chunk of the scenario, indexed in namespace `alpha`. -/
def chunkAlpha : Chunk :=
  { id := 0, ns := "alpha", text := "hello world",
    tokens := ["hello", "world"], vec := [1, 0] }

/-- State after indexing `chunkAlpha` into namespace `alpha` from empty. -/
def stAlpha : RagState :=
  indexChunk emptyRag "alpha" "hello world" ["hello", "world"] [1, 0]

/-- A query key addressed to the distinct namespace `beta`. -/
def keyBeta : QueryKey :=
  { ns := "beta", queryText := "hello", topK := 2, bm25Weight := 3/10, vectorWeight := 7/10 }

/-! ## Supporting lemmas -/

/-- Membership is preserved by ordered insertion. -/
theorem mem_insertLe {α : Type} (le : α → α → Bool) (a x : α) (l : List α) :
    x ∈ insertLe le a l ↔ x = a ∨ x ∈ l := by
  induction l with
  | nil => simp [insertLe]
  | cons b t ih =>
      simp only [insertLe]
      split
      · simp [List.mem_cons]
      · simp only [List.mem_cons, ih]
        tauto

/-- Membership is preserved by insertion sort. -/
theorem mem_insSort {α : Type} (le : α → α → Bool) (x : α) (l : List α) :
    x ∈ insSort le l ↔ x ∈ l := by
  induction l with
  | nil => simp [insSort]
  | cons a t ih => simp [insSort, mem_insertLe, ih, List.mem_cons]

/-- A chunk of a namespace's index pair lies in the store and carries that
namespace. -/
theorem mem_nsChunks (st : RagState) (ns : String) (c : Chunk) :
    c ∈ nsChunks st ns ↔ c ∈ st.chunks ∧ c.ns = ns := by
  simp [nsChunks, List.mem_filter]

/-- Vector candidates are drawn from the namespace pool. -/
theorem mem_vecCandidates (pool : List Chunk) (qvec : List Int) (n : Nat) (c : Chunk)
    (h : c ∈ vecCandidates pool qvec n) : c ∈ pool := by
  have h1 : c ∈ insSort (chunkVecLE qvec) pool := List.take_subset _ _ h
  exact (mem_insSort _ _ _).mp h1

/-- Sparse candidates are drawn from the namespace pool. -/
theorem mem_bmCandidates (pool : List Chunk) (qtokens : List String) (n : Nat) (c : Chunk)
    (h : c ∈ bmCandidates pool qtokens n) : c ∈ pool := by
  have h1 : c ∈ insSort (chunkBmLE pool qtokens) pool := List.take_subset _ _ h
  exact (mem_insSort _ _ _).mp h1

/-- Every entry the hybrid scorer returns carries the queried namespace:
the scorer only ever consults the two namespace-scoped indices. -/
theorem hybridQuery_mem_ns (st : RagState) (key : QueryKey) (qvec : List Int)
    (r : ResultEntry) (hr : r ∈ hybridQuery st key qvec) : r.chunk.ns = key.ns := by
  simp only [hybridQuery] at hr
  have h1 := List.take_subset _ _ hr
  rw [mem_insSort] at h1
  obtain ⟨c, hc, rfl⟩ := List.mem_map.mp h1
  rcases List.mem_append.mp hc with h | h
  · exact ((mem_nsChunks st key.ns c).mp (mem_vecCandidates _ _ _ _ h)).2
  · have h2 := (List.mem_filter.mp h).1
    exact ((mem_nsChunks st key.ns c).mp (mem_bmCandidates _ _ _ _ h2)).2

/-- A successful cache lookup returns an entry stored under that exact key. -/
theorem cacheLookup_mem (cache : List (QueryKey × List ResultEntry)) (key : QueryKey)
    (res : List ResultEntry) (h : cacheLookup cache key = some res) :
    ∃ e ∈ cache, e.1 = key ∧ e.2 = res := by
  simp only [cacheLookup] at h
  obtain ⟨e, hfind, heq⟩ := Option.map_eq_some'.mp h
  refine ⟨e, List.mem_of_find?_eq_some hfind, ?_, heq⟩
  have := List.find?_some hfind
  exact of_decide_eq_true this

/-- Under the cache invariant, every entry the query engine answers with —
whether computed or served from the cache — carries the queried namespace. -/
theorem queryEngine_mem_ns (avail : Bool) (st : RagState) (hinv : CacheInv st)
    (key : QueryKey) (qvec : List Int) (r : ResultEntry)
    (hr : r ∈ (queryEngine avail st key qvec).1) : r.chunk.ns = key.ns := by
  cases avail with
  | false =>
      have h : queryEngine false st key qvec = (hybridQuery st key qvec, st) := by
        simp [queryEngine]
      rw [h] at hr
      exact hybridQuery_mem_ns st key qvec r hr
  | true =>
      cases hb : bloomCacheLookup st key with
      | some res =>
          have h : queryEngine true st key qvec = (res, st) := by
            simp [queryEngine, hb]
          rw [h] at hr
          have hc : cacheLookup st.cache key = some res := by
            simp only [bloomCacheLookup] at hb
            split at hb
            · exact hb
            · exact absurd hb (by simp)
          obtain ⟨e, he, hek, her⟩ := cacheLookup_mem st.cache key res hc
          have hx := hinv e he r (by rw [her]; exact hr)
          rw [hek] at hx
          exact hx
      | none =>
          have h : (queryEngine true st key qvec).1 = hybridQuery st key qvec := by
            simp [queryEngine, hb]
          rw [h] at hr
          exact hybridQuery_mem_ns st key qvec r hr

/-- The query engine's stored state keeps the cache invariant. -/
theorem queryEngine_cacheInv (avail : Bool) (st : RagState) (hinv : CacheInv st)
    (key : QueryKey) (qvec : List Int) : CacheInv (queryEngine avail st key qvec).2 := by
  cases avail with
  | false =>
      have h : (queryEngine false st key qvec).2 = st := by simp [queryEngine]
      rw [h]
      exact hinv
  | true =>
      cases hb : bloomCacheLookup st key with
      | some res =>
          have h : (queryEngine true st key qvec).2 = st := by simp [queryEngine, hb]
          rw [h]
          exact hinv
      | none =>
          have h : (queryEngine true st key qvec).2 =
              storeResult st key (hybridQuery st key qvec) := by simp [queryEngine, hb]
          rw [h]
          intro e he r hrr
          simp only [storeResult, List.mem_cons] at he
          rcases he with he | he
          · subst he
            exact hybridQuery_mem_ns st key qvec r hrr
          · exact hinv e he r hrr

/-- Every reachable state satisfies the cache soundness invariant. -/
theorem reachable_cacheInv (st : RagState) (h : Reachable st) : CacheInv st := by
  induction h with
  | init => intro e he; simp [emptyRag] at he
  | index st ns text tokens vec _ ih =>
      intro e he r hr
      exact ih e (by simpa [indexChunk] using he) r hr
  | query st key qvec _ ih => exact queryEngine_cacheInv true st ih key qvec
  | delete st ns _ ih =>
      intro e he r hr
      simp only [deleteNamespace, List.mem_filter, decide_eq_true_eq] at he
      exact ih e he.1 r hr

/-! ## Claim theorems -/

/-- C1: Namespace isolation (zero leakage).  For all namespaces `ns1 ≠ ns2`,
a chunk that was indexed only in `ns1` (it sits in the store carrying
namespace `ns1`) never appears in the result list of a query addressed to
`ns2`, in any state the core can reach and whether or not the answer is
served from the cache. -/
theorem C1_namespace_isolation (st : RagState) (hst : Reachable st)
    (ns1 ns2 : String) (hne : ns1 ≠ ns2) (c : Chunk) (_hc : c ∈ st.chunks)
    (hcns : c.ns = ns1) (key : QueryKey) (hkey : key.ns = ns2) (qvec : List Int) :
    c ∉ (queryCached st key qvec).1.map (fun r => r.chunk) := by
  intro hmem
  obtain ⟨r, hr, hrc⟩ := List.mem_map.mp hmem
  have h1 := queryEngine_mem_ns true st (reachable_cacheInv st hst) key qvec r hr
  rw [hrc, hcns, hkey] at h1
  exact hne h1

/-- Witness for C1: in the reachable state holding exactly one chunk,
indexed in namespace `alpha`, a query addressed to namespace `beta` never
returns that chunk. -/
theorem C1_namespace_isolation_witness :
    chunkAlpha ∉ (queryCached stAlpha keyBeta [1, 0]).1.map (fun r => r.chunk) :=
  C1_namespace_isolation stAlpha
    (Reachable.index emptyRag "alpha" "hello world" ["hello", "world"] [1, 0] Reachable.init)
    "alpha" "beta" (by decide) chunkAlpha (by decide) (by decide) keyBeta (by decide) [1, 0]

/-- C2: the `RAGService` class defines none of `createNamespace`,
`deleteNamespace`, `getNamespaceStats`, although `NamespaceManager`
invokes all three on it; each such invocation throws a `TypeError`
instead of performing the operation (of the methods `NamespaceManager`
calls, only `getNamespaces` exists). -/
theorem C2_admin_methods_undefined :
    invokeMethod ragServiceMethods "createNamespace" =
      .error "TypeError: ragService.createNamespace is not a function" ∧
    invokeMethod ragServiceMethods "deleteNamespace" =
      .error "TypeError: ragService.deleteNamespace is not a function" ∧
    invokeMethod ragServiceMethods "getNamespaceStats" =
      .error "TypeError: ragService.getNamespaceStats is not a function" ∧
    ("createNamespace" ∉ ragServiceMethods ∧ "deleteNamespace" ∉ ragServiceMethods ∧
      "getNamespaceStats" ∉ ragServiceMethods) ∧
    (∀ m ∈ namespaceManagerCalls, m ∈ ragServiceMethods → m = "getNamespaces") := by
  refine ⟨rfl, rfl, rfl, by decide, by decide⟩

/-- C3 counterexample: a caller-supplied `topK` of `-3` is truthy in JS, so
the dispatched `top_k` is `-3` — not an integer `≥ 1` — refuting the
claim's parenthetical that the dispatched `top_k` is always `≥ 1`. -/
theorem C3_counterexample :
    (buildQueryPayload "q" { topK := some (-3), scoreThreshold := none }).top_k = -3 ∧
    ¬(1 ≤ (buildQueryPayload "q" { topK := some (-3), scoreThreshold := none }).top_k) := by
  exact ⟨by decide, by decide⟩

/-- C3 (amended): every `RAGService.query(query, namespace, options)` call
posts to `/query/{namespace}` with `top_k = options.topK` when truthy and
`5` otherwise (in particular `topK = 0` is replaced by `5`), with
`score_threshold = options.scoreThreshold` when truthy and `0.0` otherwise,
and returns the response body unchanged; the dispatched `top_k` is not
guaranteed `≥ 1` when the caller supplies a negative `topK`. -/
theorem C3_query_dispatch_amended {α : Type}
    (post : String → QueryPayload → ApiResponse α)
    (q ns : String) (opts : QueryOptions) (t : Int) (ht : t ≠ 0)
    (s : Rat) (hs : s ≠ 0) :
    queryEndpoint ns = "/query/" ++ ns ∧
    (buildQueryPayload q { topK := some t, scoreThreshold := some s }).top_k = t ∧
    (buildQueryPayload q { topK := some t, scoreThreshold := some s }).score_threshold = s ∧
    (buildQueryPayload q { topK := some 0, scoreThreshold := none }).top_k = 5 ∧
    (buildQueryPayload q { topK := none, scoreThreshold := some 0 }).top_k = 5 ∧
    (buildQueryPayload q { topK := none, scoreThreshold := some 0 }).score_threshold = 0 ∧
    (buildQueryPayload q opts).query = q ∧
    ragServiceQuery post q ns opts =
      (post (queryEndpoint ns) (buildQueryPayload q opts)).data := by
  refine ⟨rfl, ?_, ?_, ?_, ?_, ?_, rfl, rfl⟩
  · simp [buildQueryPayload, jsOrInt, ht]
  · simp [buildQueryPayload, jsOrRat, hs]
  · simp [buildQueryPayload, jsOrInt]
  · simp [buildQueryPayload, jsOrInt]
  · simp [buildQueryPayload, jsOrRat]

/-- Witness for the amended C3, at `query = "keyword search"`,
`namespace = "engineering"`, a truthy `topK = 7` and a truthy
`scoreThreshold = 1/2`, and an echoing transport. -/
theorem C3_query_dispatch_amended_witness :
    queryEndpoint "engineering" = "/query/" ++ "engineering" ∧
    (buildQueryPayload "keyword search"
      { topK := some 7, scoreThreshold := some (1/2) }).top_k = 7 ∧
    (buildQueryPayload "keyword search"
      { topK := some 7, scoreThreshold := some (1/2) }).score_threshold = 1/2 ∧
    (buildQueryPayload "keyword search"
      { topK := some 0, scoreThreshold := none }).top_k = 5 ∧
    (buildQueryPayload "keyword search"
      { topK := none, scoreThreshold := some 0 }).top_k = 5 ∧
    (buildQueryPayload "keyword search"
      { topK := none, scoreThreshold := some 0 }).score_threshold = 0 ∧
    (buildQueryPayload "keyword search"
      { topK := none, scoreThreshold := none }).query = "keyword search" ∧
    ragServiceQuery (fun _ p => ApiResponse.mk 200 p) "keyword search" "engineering"
        { topK := none, scoreThreshold := none } =
      ((fun (_ : String) (p : QueryPayload) => ApiResponse.mk 200 p)
        (queryEndpoint "engineering")
        (buildQueryPayload "keyword search" { topK := none, scoreThreshold := none })).data :=
  C3_query_dispatch_amended (fun _ p => ApiResponse.mk 200 p) "keyword search" "engineering"
    { topK := none, scoreThreshold := none } 7 (by decide) (1/2) (by norm_num)

/-- C4 counterexample: with Redis unreachable, `startup.sh`'s wait loop
never reaches `exec "$@"`, so part of the program does refuse to proceed
solely because the cache store is unreachable. -/
theorem C4_counterexample : startupProceeds false = false := rfl

/-- C4 (amended): when the backing cache store is unreachable, a cache
lookup behaves as a miss and the query is computed and answered uncached —
no query fails — but the container startup script blocks until Redis is
reachable, so startup (unlike query serving) does not proceed while the
cache store is down. -/
theorem C4_cache_fail_open_amended (st : RagState) (key : QueryKey) (qvec : List Int) :
    queryEngine false st key qvec = (hybridQuery st key qvec, st) ∧
    startupProceeds false = false ∧ startupProceeds true = true := by
  refine ⟨by simp [queryEngine], rfl, rfl⟩

/-- C5 counterexample: `docker-compose.fast.yml` is a deployed configuration
whose Redis command sets `--maxmemory 256mb` but no `--maxmemory-policy`,
so it runs with Redis's default `noeviction`, not `allkeys-lru`. -/
theorem C5_counterexample :
    composeFastRedis ∈ deployedRedisConfigs ∧
    effectivePolicy composeFastRedis = "noeviction" ∧
    effectivePolicy composeFastRedis ≠ "allkeys-lru" := by
  decide

/-- C5 (amended): every deployed Redis configuration is started with a
finite `maxmemory` bound; `redis.conf` (used by the full compose file) and
the default compose file set the `allkeys-lru` eviction policy, while
`docker-compose.fast.yml` sets no policy and therefore runs with Redis's
default `noeviction`. -/
theorem C5_redis_eviction_amended :
    (deployedRedisConfigs.all fun c => c.maxmemoryMb.isSome) = true ∧
    effectivePolicy redisConfConfig = "allkeys-lru" ∧
    effectivePolicy composeDefaultRedis = "allkeys-lru" ∧
    effectivePolicy composeFastRedis = redisDefaultPolicy := by
  decide

/-- C6: Query is idempotent in the absence of writes: two `Query` calls
with identical namespace, query text, `topK` and weights, with no
intervening write, return identical ordered result lists — whether the
second call is served from the cache (after a cold first call) or both
are (after a warm first call). -/
theorem C6_query_idempotent (st : RagState) (key : QueryKey) (qvec : List Int) :
    (queryCached (queryCached st key qvec).2 key qvec).1 = (queryCached st key qvec).1 := by
  cases hb : bloomCacheLookup st key with
  | some res =>
      have h1 : queryCached st key qvec = (res, st) := by
        simp [queryCached, queryEngine, hb]
      rw [h1]
      simp [queryCached, queryEngine, hb]
  | none =>
      have h1 : queryCached st key qvec =
          (hybridQuery st key qvec, storeResult st key (hybridQuery st key qvec)) := by
        simp [queryCached, queryEngine, hb]
      rw [h1]
      have h2 : bloomCacheLookup (storeResult st key (hybridQuery st key qvec)) key =
          some (hybridQuery st key qvec) := by
        simp [bloomCacheLookup, storeResult, cacheLookup, List.find?]
      simp [queryCached, queryEngine, h2]

/-- C7: every deployment configuration shipped with the repository sets the
hybrid-search defaults `BM25_WEIGHT = 0.3` and `VECTOR_WEIGHT = 0.7`. -/
theorem C7_weight_defaults :
    (shippedWeightConfigs.all fun w =>
      decide (w.bm25 = 3/10 ∧ w.vector = 7/10)) = true := by
  simp [shippedWeightConfigs, fullComposeWeights, defaultComposeIngestWeights,
    defaultComposeApiWeights, fastComposeWeights]

/-- C8: any response with HTTP status 401 routed through the axios instance
removes the stored token, after which `isAuthenticated()` returns `false`
and outgoing requests carry no Authorization header. -/
theorem C8_unauthorized_clears_token (st : Option String) :
    isAuthenticated (processResponse 401 st) = false ∧
    authHeader (processResponse 401 st) = none := by
  have h : processResponse 401 st = none := by
    simp [processResponse, onResponseError, clearToken]
  rw [h]
  exact ⟨rfl, rfl⟩

/-- C9 counterexample: with token `"tok"` stored, a failed login whose HTTP
response has status 401 leaves the storage empty — the stored token is not
left unchanged on this login failure. -/
theorem C9_counterexample :
    (loginModel (some "tok") (.httpError 401 (some "Invalid credentials"))).2 ≠ some "tok" := by
  decide

/-- C9 (amended): `login` stores the returned `access_token` exactly when
the POST succeeds; on failure it throws an Error whose message begins with
`'Login failed: '`, and the stored token is left unchanged — except when
the failure is an HTTP 401 response, in which case the response interceptor
removes the stored token before `login` rethrows. -/
theorem C9_login_amended (st : Option String) (body : LoginBody) (s : Nat)
    (d : Option String) (m : String) :
    loginModel st (.success body) = (.ok body, some body.access_token) ∧
    loginModel st (.httpError s d) =
      (.error ("Login failed: " ++ httpErrMsg s d), if s = 401 then none else st) ∧
    loginModel st (.networkError m) = (.error ("Login failed: " ++ m), st) := by
  refine ⟨rfl, ?_, rfl⟩
  simp [loginModel, onResponseError, clearToken]

/-- C10: the namespace management UI never dispatches deletion of the
`default` namespace — the delete button is rendered only when the name
differs from `default` — and no deletion of any namespace is dispatched
without the confirmation dialog being accepted. -/
theorem C10_default_namespace_protected :
    renderDeleteAction "default" = false ∧
    (∀ confirmResult : Bool, uiDeleteDispatch "default" confirmResult = false) ∧
    (∀ ns : String, uiDeleteDispatch ns false = false) := by
  refine ⟨by decide, ?_, ?_⟩
  · intro c
    simp [uiDeleteDispatch, renderDeleteAction]
  · intro ns
    simp [uiDeleteDispatch, confirmedDelete]

end Ragdoll
